import Mathlib

/-!
Shallow embedding of the kabu-stock-system core: the conflict-aware upsert
in backend/models/database.py, the forced-update route in
backend/routes/api.py, the statistics aggregation in PriceStatistics,
the batch orchestration step in backend/utils/stock_batch_processor.py and
backend/utils/jquants_batch_processor.py, and the refresh-token lifecycle
in backend/utils/token_manager.py.

Prices and financial ratios are modelled as rationals; SQL tables are lists
of row structures together with the next AUTOINCREMENT id; dates are
structured year-month-day triples, and the strftime period labels are
rebuilt as zero-padded strings.
-/

namespace KabuStock

/-- The Python builtin abs on a rational value. -/
def ratAbs (q : ℚ) : ℚ := if q < 0 then -q else q

theorem ratAbs_eq_abs (q : ℚ) : ratAbs q = |q| := by
  by_cases h : q < 0
  · simp [ratAbs, h, abs_of_neg h]
  · simp [ratAbs, h, abs_of_nonneg (le_of_not_lt h)]

/-- A calendar date as stored in the price_date and report_date columns. -/
structure PDate where
  year : Nat
  month : Nat
  day : Nat
deriving DecidableEq, Repr

/-- Zero-pad a number below 100 to two digits, as strftime does for %m. -/
def pad2 (n : Nat) : String :=
  if n < 10 then "0" ++ toString n else toString n

/-- The strftime %Y-%m label of a date (used for monthly statistics keys). -/
def fmtYM (d : PDate) : String := toString d.year ++ "-" ++ pad2 d.month

/-- The strftime %Y label of a date (used for yearly statistics keys). -/
def fmtY (d : PDate) : String := toString d.year

/-- One row of the stock_prices table. -/
structure PriceRow where
  id : Nat
  company_id : Nat
  price : ℚ
  price_date : PDate
  volume : Int
deriving DecidableEq, Repr

/-- The stock_prices table: its rows plus the next AUTOINCREMENT id. -/
structure PriceDB where
  rows : List PriceRow
  next_id : Nat
deriving DecidableEq, Repr

/-- The SELECT of StockPrice.create_or_update and get_conflicting_data:
rows with the given (company_id, price_date) natural key, first match. -/
def findExistingPrice (db : PriceDB) (cid : Nat) (d : PDate) : Option PriceRow :=
  (db.rows.filter fun r => r.company_id == cid && r.price_date == d).head?

/-- Result of StockPrice.create_or_update: the created, unchanged and
warning statuses of the returned dict; warning carries the existing_data
and new_data payloads. -/
inductive PriceOutcome where
  | created (id : Nat)
  | unchanged (id : Nat)
  | warning (id : Nat) (existing_price : ℚ) (existing_volume : Int)
      (new_price : ℚ) (new_volume : Int)
deriving DecidableEq, Repr

/-- StockPrice.create_or_update (backend/models/database.py lines 128-171):
look up the (company_id, price_date) key; if a row exists, report warning
when the price differs by more than 0.01 or the volume differs at all,
otherwise unchanged; if absent, insert and report created. -/
def create_or_update (db : PriceDB) (cid : Nat) (price : ℚ) (d : PDate)
    (volume : Int) : PriceOutcome × PriceDB :=
  match findExistingPrice db cid d with
  | some ex =>
      if (1 : ℚ)/100 < ratAbs (ex.price - price) ∨ ex.volume ≠ volume then
        (.warning ex.id ex.price ex.volume price volume, db)
      else
        (.unchanged ex.id, db)
  | none =>
      (.created db.next_id,
       ⟨db.rows ++ [⟨db.next_id, cid, price, d, volume⟩], db.next_id + 1⟩)

/-- C1: reconciling the same (key, fields) pair twice from a state without
the key yields created then unchanged, and the second call leaves the store
exactly as the first call wrote it. -/
theorem create_or_update_idempotent (db : PriceDB) (cid : Nat) (price : ℚ)
    (d : PDate) (volume : Int) (h : findExistingPrice db cid d = none) :
    (create_or_update db cid price d volume).1 = .created db.next_id
    ∧ (create_or_update (create_or_update db cid price d volume).2
        cid price d volume).1 = .unchanged db.next_id
    ∧ (create_or_update (create_or_update db cid price d volume).2
        cid price d volume).2 = (create_or_update db cid price d volume).2 := by
  have hfilter : db.rows.filter
      (fun r => r.company_id == cid && r.price_date == d) = [] := by
    simpa [findExistingPrice, List.head?_eq_none_iff] using h
  have hfind2 : findExistingPrice
      ⟨db.rows ++ [⟨db.next_id, cid, price, d, volume⟩], db.next_id + 1⟩ cid d
      = some ⟨db.next_id, cid, price, d, volume⟩ := by
    simp [findExistingPrice, List.filter_append, hfilter]
  have hsame : ¬ ((1 : ℚ)/100 < ratAbs (price - price) ∨ (volume : Int) ≠ volume) := by
    simp [ratAbs]
  refine ⟨?_, ?_, ?_⟩
  · simp [create_or_update, h]
  · simp only [create_or_update, h, hfind2]
    rw [if_neg hsame]
  · simp only [create_or_update, h, hfind2]
    rw [if_neg hsame]

/-- Closed instance of C1 at a concrete input. -/
theorem create_or_update_idempotent_witness :
    findExistingPrice ⟨[], 1⟩ 1 ⟨2024, 1, 5⟩ = none
    ∧ ((create_or_update ⟨[], 1⟩ 1 100 ⟨2024, 1, 5⟩ 0).1 = .created 1
      ∧ (create_or_update (create_or_update ⟨[], 1⟩ 1 100 ⟨2024, 1, 5⟩ 0).2
          1 100 ⟨2024, 1, 5⟩ 0).1 = .unchanged 1
      ∧ (create_or_update (create_or_update ⟨[], 1⟩ 1 100 ⟨2024, 1, 5⟩ 0).2
          1 100 ⟨2024, 1, 5⟩ 0).2 = (create_or_update ⟨[], 1⟩ 1 100 ⟨2024, 1, 5⟩ 0).2) :=
  ⟨rfl, create_or_update_idempotent ⟨[], 1⟩ 1 100 ⟨2024, 1, 5⟩ 0 rfl⟩

/-- Store holding (companyId=1, date=2024-01-05, price=100.00, volume=500). -/
def toleranceExampleDB : PriceDB := ⟨[⟨1, 1, 100, ⟨2024, 1, 5⟩, 500⟩], 2⟩

/-- C2: against a stored price of 100.00, a candidate price of 100.02
(diff 0.02 > 0.01) conflicts, a candidate price of 100.005
(diff 0.005 within tolerance) is unchanged, and a volume differing by one
unit conflicts even with an identical price, so volume has no tolerance. -/
theorem conflict_tolerance_example :
    (create_or_update toleranceExampleDB 1 (10002/100) ⟨2024, 1, 5⟩ 500).1
      = .warning 1 100 500 (10002/100) 500
    ∧ (create_or_update toleranceExampleDB 1 (100005/1000) ⟨2024, 1, 5⟩ 500).1
      = .unchanged 1
    ∧ (create_or_update toleranceExampleDB 1 100 ⟨2024, 1, 5⟩ 501).1
      = .warning 1 100 500 100 501 := by
  norm_num [create_or_update, findExistingPrice, toleranceExampleDB, ratAbs,
    List.filter]

/-- The seven comparable metric columns of the financial_metrics table,
each nullable; also the shape of the **metrics keyword set passed to
FinancialMetrics.create_or_update, where an omitted keyword shows up as
metrics.get(key) = None. -/
structure FinMetrics where
  pbr : Option ℚ
  per : Option ℚ
  equity_ratio : Option ℚ
  roe : Option ℚ
  roa : Option ℚ
  net_sales : Option ℚ
  operating_profit : Option ℚ
deriving DecidableEq, Repr

/-- One row of the financial_metrics table. -/
structure FinRow where
  id : Nat
  company_id : Nat
  report_date : PDate
  metrics : FinMetrics
deriving DecidableEq, Repr

/-- The financial_metrics table. -/
structure FinDB where
  rows : List FinRow
  next_id : Nat
deriving DecidableEq, Repr

def findExistingFin (db : FinDB) (cid : Nat) (d : PDate) : Option FinRow :=
  (db.rows.filter fun r => r.company_id == cid && r.report_date == d).head?

/-- Per-field comparison of FinancialMetrics.create_or_update: when both
sides are non-null the values differ if they are more than 0.0001 apart;
otherwise any null versus non-null pair differs and null versus null does
not. -/
def metricDiff (existing_val new_val : Option ℚ) : Bool :=
  match existing_val, new_val with
  | some e, some n => decide ((1 : ℚ)/10000 < ratAbs (e - n))
  | e, n => decide (e ≠ n)

/-- The field loop of FinancialMetrics.create_or_update over the seven
metric keys. -/
def finHasDifference (ex cand : FinMetrics) : Bool :=
  metricDiff ex.pbr cand.pbr || metricDiff ex.per cand.per
    || metricDiff ex.equity_ratio cand.equity_ratio
    || metricDiff ex.roe cand.roe || metricDiff ex.roa cand.roa
    || metricDiff ex.net_sales cand.net_sales
    || metricDiff ex.operating_profit cand.operating_profit

/-- Result of FinancialMetrics.create_or_update. -/
inductive FinOutcome where
  | created (id : Nat)
  | unchanged (id : Nat)
  | warning (id : Nat) (existing_data new_data : FinMetrics)
deriving DecidableEq, Repr

/-- FinancialMetrics.create_or_update (backend/models/database.py lines
243-332): look up the (company_id, report_date) key; if a row exists,
compare all seven metric columns against the candidate keyword set (an
omitted keyword is compared as None) and report warning on any difference,
otherwise unchanged; if absent, insert and report created. -/
def fin_create_or_update (db : FinDB) (cid : Nat) (d : PDate)
    (cand : FinMetrics) : FinOutcome × FinDB :=
  match findExistingFin db cid d with
  | some ex =>
      if finHasDifference ex.metrics cand then
        (.warning ex.id ex.metrics cand, db)
      else
        (.unchanged ex.id, db)
  | none =>
      (.created db.next_id,
       ⟨db.rows ++ [⟨db.next_id, cid, d, cand⟩], db.next_id + 1⟩)

/-- The empty candidate keyword set: every metric omitted. -/
def noMetrics : FinMetrics := ⟨none, none, none, none, none, none, none⟩

/-- Stored snapshot whose only non-null metric is roe = 0.1. -/
def roeOnlyRow : FinRow := ⟨1, 1, ⟨2024, 1, 5⟩, { noMetrics with roe := some (1/10) }⟩

/-- Stored snapshot with every metric null. -/
def allNullRow : FinRow := ⟨1, 1, ⟨2024, 1, 5⟩, noMetrics⟩

/-- C3 counterexample: a candidate omitting roe, reconciled against a
stored snapshot whose roe is non-null (and whose other fields all match
the candidate), DOES report a conflict, and the conflict is on account of
roe alone: the identical candidate against the same snapshot with roe null
is unchanged. -/
theorem fin_roe_omitted_counterexample :
    (fin_create_or_update ⟨[roeOnlyRow], 2⟩ 1 ⟨2024, 1, 5⟩ noMetrics).1
      = .warning 1 roeOnlyRow.metrics noMetrics
    ∧ (fin_create_or_update ⟨[allNullRow], 2⟩ 1 ⟨2024, 1, 5⟩ noMetrics).1
      = .unchanged 1 := by
  have hd1 : finHasDifference roeOnlyRow.metrics noMetrics = true := by
    simp [finHasDifference, metricDiff, roeOnlyRow, noMetrics]
  have hd2 : finHasDifference allNullRow.metrics noMetrics = false := by
    simp [finHasDifference, metricDiff, allNullRow, noMetrics]
  have hf1 : findExistingFin ⟨[roeOnlyRow], 2⟩ 1 ⟨2024, 1, 5⟩ = some roeOnlyRow := by
    simp [findExistingFin, roeOnlyRow, List.filter]
  have hf2 : findExistingFin ⟨[allNullRow], 2⟩ 1 ⟨2024, 1, 5⟩ = some allNullRow := by
    simp [findExistingFin, allNullRow, List.filter]
  constructor
  · simp only [fin_create_or_update, hf1]
    rw [if_pos hd1]
    rfl
  · simp only [fin_create_or_update, hf2]
    rw [if_neg (by simp [hd2])]
    rfl

/-- C3 amended: with every other field comparing equal, a candidate that
omits roe reconciles as unchanged exactly when the stored roe is null;
when the stored roe is non-null the omitted field is treated as a null
candidate value and reported as a conflict. -/
theorem fin_roe_omitted_spec (db : FinDB) (cid : Nat) (d : PDate)
    (cand : FinMetrics) (ex : FinRow)
    (hfind : findExistingFin db cid d = some ex)
    (hroe : cand.roe = none)
    (hothers : finHasDifference ex.metrics { cand with roe := ex.metrics.roe } = false) :
    ((fin_create_or_update db cid d cand).1 = .unchanged ex.id
        ↔ ex.metrics.roe = none)
    ∧ ((fin_create_or_update db cid d cand).1 = .warning ex.id ex.metrics cand
        ↔ ex.metrics.roe ≠ none) := by
  have hdiff : finHasDifference ex.metrics cand
      = metricDiff ex.metrics.roe none := by
    have h := hothers
    simp only [finHasDifference, Bool.or_eq_false_iff] at h
    obtain ⟨⟨⟨⟨⟨⟨h1, h2⟩, h3⟩, _⟩, h5⟩, h6⟩, h7⟩ := h
    simp only [finHasDifference, hroe]
    rw [h1, h2, h3, h5, h6, h7]
    simp
  simp only [fin_create_or_update, hfind]
  cases hr : ex.metrics.roe with
  | none =>
      have hfalse : finHasDifference ex.metrics cand = false := by
        rw [hdiff, hr]; simp [metricDiff]
      rw [if_neg (by simp [hfalse])]
      constructor <;> simp
  | some v =>
      have htrue : finHasDifference ex.metrics cand = true := by
        rw [hdiff, hr]; simp [metricDiff]
      rw [if_pos htrue]
      constructor <;> simp

/-- Closed instance of the amended C3 at the concrete stored snapshot
whose only non-null field is roe. -/
theorem fin_roe_omitted_spec_witness :
    ((fin_create_or_update ⟨[roeOnlyRow], 2⟩ 1 ⟨2024, 1, 5⟩ noMetrics).1
        = .unchanged 1 ↔ roeOnlyRow.metrics.roe = none)
    ∧ ((fin_create_or_update ⟨[roeOnlyRow], 2⟩ 1 ⟨2024, 1, 5⟩ noMetrics).1
        = .warning 1 roeOnlyRow.metrics noMetrics ↔ roeOnlyRow.metrics.roe ≠ none) :=
  fin_roe_omitted_spec ⟨[roeOnlyRow], 2⟩ 1 ⟨2024, 1, 5⟩ noMetrics roeOnlyRow
    rfl rfl (by norm_num [finHasDifference, metricDiff, roeOnlyRow, noMetrics, ratAbs])

/-- StockPrice.force_update (backend/models/database.py lines 173-180): the
UPDATE statement that overwrites price and volume on every row matching the
(company_id, price_date) key, returning the number of rows affected. -/
def force_update (db : PriceDB) (cid : Nat) (price : ℚ) (d : PDate)
    (volume : Int) : Nat × PriceDB :=
  ((db.rows.filter fun r => r.company_id == cid && r.price_date == d).length,
   ⟨db.rows.map fun r =>
      if r.company_id = cid ∧ r.price_date = d then
        { r with price := price, volume := volume }
      else r,
    db.next_id⟩)

/-- Outcome of the force-update HTTP route: notFound is the 404 response,
ok carries the rows_updated count of the 200 response. -/
inductive ForceUpdateOutcome where
  | notFound
  | ok (rows_updated : Nat)
deriving DecidableEq, Repr

/-- force_update_stock_price (backend/routes/api.py lines 373-417): check
the key with get_conflicting_data; reply 404 when no row matches, otherwise
run StockPrice.force_update. -/
def force_update_stock_price (db : PriceDB) (cid : Nat) (d : PDate)
    (price : ℚ) (volume : Int) : ForceUpdateOutcome × PriceDB :=
  match findExistingPrice db cid d with
  | none => (.notFound, db)
  | some _ =>
      ((.ok (force_update db cid price d volume).1),
       (force_update db cid price d volume).2)

/-- C4: on a key that matches no stored row the forced-update route replies
notFound and leaves the store untouched; on a key that matches, it replies
ok, keeps the row count (never creates), overwrites price and volume of
every row with that key regardless of how they differ, and keeps every
other row as it was. -/
theorem force_update_route_spec (db : PriceDB) (cid : Nat) (d : PDate)
    (price : ℚ) (volume : Int) :
    (findExistingPrice db cid d = none →
      force_update_stock_price db cid d price volume = (.notFound, db))
    ∧ (findExistingPrice db cid d ≠ none →
      (force_update_stock_price db cid d price volume).1
          = .ok (db.rows.filter fun r => r.company_id == cid && r.price_date == d).length
      ∧ (force_update_stock_price db cid d price volume).2.rows.length
          = db.rows.length
      ∧ (∀ r ∈ (force_update_stock_price db cid d price volume).2.rows,
          r.company_id = cid → r.price_date = d →
            r.price = price ∧ r.volume = volume)
      ∧ (∀ r ∈ db.rows, ¬(r.company_id = cid ∧ r.price_date = d) →
          r ∈ (force_update_stock_price db cid d price volume).2.rows)) := by
  constructor
  · intro h
    simp [force_update_stock_price, h]
  · intro h
    obtain ⟨ex, hex⟩ := Option.ne_none_iff_exists.mp h
    simp only [force_update_stock_price, ← hex]
    refine ⟨rfl, by simp [force_update], ?_, ?_⟩
    · intro r hr hcid hd
      simp only [force_update, List.mem_map] at hr
      obtain ⟨r0, _, hr0⟩ := hr
      by_cases hkey : r0.company_id = cid ∧ r0.price_date = d
      · rw [if_pos hkey] at hr0
        subst hr0
        exact ⟨rfl, rfl⟩
      · rw [if_neg hkey] at hr0
        subst hr0
        exact absurd ⟨hcid, hd⟩ hkey
    · intro r hr hkey
      simp only [force_update, List.mem_map]
      exact ⟨r, hr, by rw [if_neg hkey]⟩

/-- Closed instance of C4: the missing-key branch at an empty store and the
matching-key branch at the store of the tolerance example, each hypothesis
discharged at the concrete input. -/
theorem force_update_route_spec_witness :
    force_update_stock_price ⟨[], 1⟩ 1 ⟨2024, 1, 5⟩ 100 0 = (.notFound, ⟨[], 1⟩)
    ∧ (force_update_stock_price toleranceExampleDB 1 ⟨2024, 1, 5⟩ 999 7).1
        = .ok (toleranceExampleDB.rows.filter fun r =>
            r.company_id == 1 && r.price_date == (⟨2024, 1, 5⟩ : PDate)).length :=
  ⟨(force_update_route_spec ⟨[], 1⟩ 1 ⟨2024, 1, 5⟩ 100 0).1 rfl,
   ((force_update_route_spec toleranceExampleDB 1 ⟨2024, 1, 5⟩ 999 7).2
      (by simp [findExistingPrice, toleranceExampleDB, List.filter])).1⟩

/-- One row of the jquants_tokens table created by
JQuantsTokenManager._initialize_db; note the UNIQUE constraint on the
user_identifier column in that schema. Timestamps are seconds. -/
structure TokenRow where
  id : Nat
  user_identifier : String
  refresh_token : String
  created_at : Int
  expires_at : Int
  last_used_at : Option Int
  is_active : Bool
  plan_type : String
deriving DecidableEq, Repr

/-- The jquants_tokens table. -/
structure TokenDB where
  rows : List TokenRow
  next_id : Nat
deriving DecidableEq, Repr

def secondsPerDay : Int := 86400

/-- JQuantsTokenManager.save_refresh_token (token_manager.py lines 51-91):
inside one sqlite transaction, deactivate every row of the identifier, then
INSERT a fresh row with expires_at seven days out.  The schema declares
user_identifier TEXT UNIQUE, so whenever any row (active or not) already
holds the identifier the INSERT raises IntegrityError; the connection
context manager then rolls the whole transaction back, the except clause
logs and returns False, and the store is exactly as before the call. -/
def save_refresh_token (db : TokenDB) (now : Int) (refresh_token : String)
    (user_identifier : String) (plan_type : String) : Bool × TokenDB :=
  if db.rows.any fun r => r.user_identifier == user_identifier then
    (false, db)
  else
    (true,
     ⟨(db.rows.map fun r =>
         if r.user_identifier = user_identifier then { r with is_active := false } else r)
        ++ [⟨db.next_id, user_identifier, refresh_token, now,
             now + 7 * secondsPerDay, some now, true, plan_type⟩],
      db.next_id + 1⟩)

/-- C5 at the failing input: the first save for identifier default
succeeds and installs one active row, but the second save for the same
identifier hits the UNIQUE(user_identifier) constraint, returns False,
leaves the store exactly as after the first save — the first token is
still the only row and still active, and no row holds the second token. -/
theorem save_refresh_token_unique_violation :
    (save_refresh_token ⟨[], 1⟩ 0 "tok1" "default" "Standard").1 = true
    ∧ (save_refresh_token
        (save_refresh_token ⟨[], 1⟩ 0 "tok1" "default" "Standard").2
        100 "tok2" "default" "Standard").1 = false
    ∧ (save_refresh_token
        (save_refresh_token ⟨[], 1⟩ 0 "tok1" "default" "Standard").2
        100 "tok2" "default" "Standard").2
      = (save_refresh_token ⟨[], 1⟩ 0 "tok1" "default" "Standard").2
    ∧ ((save_refresh_token
        (save_refresh_token ⟨[], 1⟩ 0 "tok1" "default" "Standard").2
        100 "tok2" "default" "Standard").2.rows.filter fun r =>
          r.user_identifier == "default" && r.is_active)
      = [⟨1, "default", "tok1", 0, 7 * secondsPerDay, some 0, true, "Standard"⟩]
    ∧ ((save_refresh_token
        (save_refresh_token ⟨[], 1⟩ 0 "tok1" "default" "Standard").2
        100 "tok2" "default" "Standard").2.rows.any fun r =>
          r.refresh_token == "tok2") = false := by
  refine ⟨rfl, rfl, rfl, ?_, rfl⟩
  simp [save_refresh_token, secondsPerDay, List.filter]

/-- C10: whenever save_refresh_token reports failure the token store is
bit-for-bit unchanged — the failing INSERT and the preceding deactivation
UPDATE sit in one transaction that the sqlite connection context manager
rolls back, so a previously active token stays active. -/
theorem save_refresh_token_failure_frame (db : TokenDB) (now : Int)
    (tok uid plan : String)
    (h : (save_refresh_token db now tok uid plan).1 = false) :
    (save_refresh_token db now tok uid plan).2 = db := by
  by_cases hdup : (db.rows.any fun r => r.user_identifier == uid) = true
  · simp [save_refresh_token, hdup]
  · simp [save_refresh_token, hdup] at h

/-- Closed instance of C10 at a store already holding the identifier. -/
theorem save_refresh_token_failure_frame_witness :
    (save_refresh_token
        ⟨[⟨1, "default", "tok1", 0, 604800, some 0, true, "Standard"⟩], 2⟩
        100 "tok2" "default" "Standard").2
      = ⟨[⟨1, "default", "tok1", 0, 604800, some 0, true, "Standard"⟩], 2⟩ :=
  save_refresh_token_failure_frame
    ⟨[⟨1, "default", "tok1", 0, 604800, some 0, true, "Standard"⟩], 2⟩
    100 "tok2" "default" "Standard" rfl

/-- The WHERE clause of JQuantsTokenManager.get_refresh_token: identifier
match, is_active = 1, and expires_at still in the future. -/
def tokenQueryMatch (uid : String) (now : Int) (r : TokenRow) : Bool :=
  r.user_identifier == uid && r.is_active && decide (now < r.expires_at)

/-- ORDER BY created_at DESC LIMIT 1 over the matching rows: the first row
carrying the maximal created_at. -/
def pickLatest (l : List TokenRow) : Option TokenRow :=
  l.foldl (fun acc r =>
    match acc with
    | none => some r
    | some a => if a.created_at < r.created_at then some r else some a) none

/-- JQuantsTokenManager.get_refresh_token (token_manager.py lines 93-137):
select the newest active unexpired row of the identifier; when found,
update its last_used_at to the current time and return the row as read. -/
def get_refresh_token (db : TokenDB) (now : Int) (uid : String) :
    Option TokenRow × TokenDB :=
  match pickLatest (db.rows.filter (tokenQueryMatch uid now)) with
  | none => (none, db)
  | some r =>
      (some r,
       ⟨db.rows.map fun x =>
          if x.id = r.id then { x with last_used_at := some now } else x,
        db.next_id⟩)

/-- The status strings of JQuantsTokenManager.check_token_expiry. -/
inductive ExpiryStatus where
  | not_found
  | expired
  | expiring_soon
  | warning
  | valid
deriving DecidableEq, Repr

/-- The dict returned by check_token_expiry, restricted to the valid flag,
the status and days_remaining. -/
structure ExpiryInfo where
  valid : Bool
  status : ExpiryStatus
  days_remaining : Int
deriving DecidableEq, Repr

/-- The classification arms of check_token_expiry on the remaining
lifetime in seconds; days are the floor division of the Python timedelta. -/
def classifyExpiry (remaining : Int) : ExpiryInfo :=
  if remaining ≤ 0 then ⟨false, .expired, 0⟩
  else if remaining.fdiv secondsPerDay ≤ 1 then
    ⟨true, .expiring_soon, remaining.fdiv secondsPerDay⟩
  else if remaining.fdiv secondsPerDay ≤ 2 then
    ⟨true, .warning, remaining.fdiv secondsPerDay⟩
  else ⟨true, .valid, remaining.fdiv secondsPerDay⟩

/-- JQuantsTokenManager.check_token_expiry (token_manager.py lines
139-203): fetch the token through get_refresh_token — inheriting its
last_used_at write — and classify the remaining lifetime. -/
def check_token_expiry (db : TokenDB) (now : Int) (uid : String) :
    ExpiryInfo × TokenDB :=
  match get_refresh_token db now uid with
  | (none, dbr) => (⟨false, .not_found, 0⟩, dbr)
  | (some r, dbr) => (classifyExpiry (r.expires_at - now), dbr)

/-- An active token of identifier default, created at 0, expiring five days
later, last used at time 0. -/
def activeTokenRow : TokenRow :=
  ⟨1, "default", "tok", 0, 432000, some 0, true, "Standard"⟩

/-- C6 counterexample: classifying the expiry of an active valid token is
not a pure query — it overwrites the stored last_used_at (0) with the
query time (1000). -/
theorem check_token_expiry_mutates :
    (check_token_expiry ⟨[activeTokenRow], 2⟩ 1000 "default").2
      = ⟨[{ activeTokenRow with last_used_at := some 1000 }], 2⟩
    ∧ (check_token_expiry ⟨[activeTokenRow], 2⟩ 1000 "default").2
      ≠ ⟨[activeTokenRow], 2⟩ := by decide

/-- A token row with every field except last_used_at forgotten. -/
def TokenRow.clearLast (r : TokenRow) : TokenRow := { r with last_used_at := none }

/-- C6 amended: check_token_expiry changes nothing about the store except
possibly the last_used_at column: erasing that column makes the before and
after row lists identical, any row whose last_used_at does change receives
the query time, and when no active unexpired row of the identifier exists
the store is returned untouched. -/
theorem check_token_expiry_frame (db : TokenDB) (now : Int) (uid : String) :
    ((check_token_expiry db now uid).2.rows.map TokenRow.clearLast
        = db.rows.map TokenRow.clearLast)
    ∧ ((check_token_expiry db now uid).2.next_id = db.next_id)
    ∧ (∀ i : Nat,
        ((check_token_expiry db now uid).2.rows[i]?).map TokenRow.last_used_at
          = (db.rows[i]?).map TokenRow.last_used_at
        ∨ ((check_token_expiry db now uid).2.rows[i]?).map TokenRow.last_used_at
          = some (some now))
    ∧ ((db.rows.filter (tokenQueryMatch uid now)) = [] →
        (check_token_expiry db now uid).2 = db) := by
  have hstate : (check_token_expiry db now uid).2 = (get_refresh_token db now uid).2 := by
    simp only [check_token_expiry]
    rcases hg : get_refresh_token db now uid with ⟨info, dbr⟩
    cases info <;> simp
  rw [hstate]
  simp only [get_refresh_token]
  cases hp : pickLatest (db.rows.filter (tokenQueryMatch uid now)) with
  | none => simp
  | some r =>
      refine ⟨?_, rfl, ?_, ?_⟩
      · rw [List.map_map]
        apply List.map_congr_left
        intro x _
        by_cases hx : x.id = r.id
        · simp [hx, TokenRow.clearLast, Function.comp]
        · simp [hx, Function.comp]
      · intro i
        rw [List.getElem?_map]
        cases hi : db.rows[i]? with
        | none => simp [hi]
        | some x =>
            by_cases hx : x.id = r.id
            · right; simp [hi, hx]
            · left; simp [hi, hx]
      · intro hnil
        rw [hnil] at hp
        exact absurd hp (by simp [pickLatest])

/-- Closed instance of the amended C6: with the only stored token already
expired, the classification query leaves the store untouched. -/
theorem check_token_expiry_frame_witness :
    (check_token_expiry
        ⟨[⟨1, "default", "tok", 0, 432000, some 0, true, "Standard"⟩], 2⟩
        500000 "default").2
      = ⟨[⟨1, "default", "tok", 0, 432000, some 0, true, "Standard"⟩], 2⟩ :=
  (check_token_expiry_frame
      ⟨[⟨1, "default", "tok", 0, 432000, some 0, true, "Standard"⟩], 2⟩
      500000 "default").2.2.2 (by decide)

/-- One row of the price_statistics table.  Modelled from the spec: the
CREATE TABLE statement for price_statistics is not under src/; section 3 of
the design gives PeriodStatistic the unique key
(companyId, periodType, periodValue), overwritten on each aggregation run,
which fixes the INSERT OR REPLACE semantics used below. -/
structure StatRow where
  company_id : Nat
  period_type : String
  period_value : String
  min_price : ℚ
  max_price : ℚ
  avg_price : ℚ
deriving DecidableEq, Repr

/-- The whole store touched by the batch orchestrator: stock_prices,
financial_metrics and price_statistics. -/
structure SystemDB where
  stock_prices : PriceDB
  financial_metrics : FinDB
  price_statistics : List StatRow
deriving DecidableEq, Repr

/-- The date_filter branch of PriceStatistics.update_statistics: monthly
compares the strftime %Y-%m label, yearly the %Y label, anything else is
the all_time 1=1 filter. -/
def matchesPeriod (period_type period_value : String) (d : PDate) : Bool :=
  if period_type = "monthly" then fmtYM d == period_value
  else if period_type = "yearly" then fmtY d == period_value
  else true

/-- The prices feeding MIN/MAX/AVG: prices of the stock_prices rows of the
company whose date falls in the period. -/
def periodPrices (db : SystemDB) (cid : Nat) (pt pv : String) : List ℚ :=
  (db.stock_prices.rows.filter fun r =>
      r.company_id == cid && matchesPeriod pt pv r.price_date).map PriceRow.price

/-- PriceStatistics.update_statistics (backend/models/database.py lines
382-417): aggregate MIN/MAX/AVG over the period rows; when the SELECT
returns no rows (NULL aggregates) or a falsy minimum (the Python truthiness
test on min_price, which a zero minimum also trips) nothing is written;
otherwise INSERT OR REPLACE the PeriodStatistic of that key. -/
def update_statistics (db : SystemDB) (cid : Nat) (pt pv : String) : SystemDB :=
  match periodPrices db cid pt pv with
  | [] => db
  | p :: rest =>
      if rest.foldl min p = 0 then db
      else
        { db with price_statistics :=
            (db.price_statistics.filter fun s =>
              !(s.company_id == cid && s.period_type == pt && s.period_value == pv))
            ++ [⟨cid, pt, pv, rest.foldl min p, rest.foldl max p,
                 (p :: rest).sum / ((p :: rest).length : ℚ)⟩] }

theorem foldl_min_le_init (l : List ℚ) : ∀ a : ℚ, l.foldl min a ≤ a := by
  induction l with
  | nil => intro a; exact le_refl a
  | cons x xs ih =>
      intro a
      exact le_trans (ih (min a x)) (min_le_left a x)

theorem foldl_min_le_mem (l : List ℚ) : ∀ a q : ℚ, q ∈ l → l.foldl min a ≤ q := by
  induction l with
  | nil => intro a q hq; cases hq
  | cons x xs ih =>
      intro a q hq
      rcases List.mem_cons.mp hq with rfl | h
      · exact le_trans (foldl_min_le_init xs (min a q)) (min_le_right a q)
      · exact ih (min a x) q h

theorem foldl_min_mem (l : List ℚ) : ∀ a : ℚ, l.foldl min a = a ∨ l.foldl min a ∈ l := by
  induction l with
  | nil => intro a; left; rfl
  | cons x xs ih =>
      intro a
      rcases ih (min a x) with h | h
      · rcases min_choice a x with h2 | h2
        · left; rw [List.foldl_cons, h, h2]
        · right; rw [List.foldl_cons, h, h2]; exact List.mem_cons_self x xs
      · right; exact List.mem_cons_of_mem x h

theorem foldl_max_ge_init (l : List ℚ) : ∀ a : ℚ, a ≤ l.foldl max a := by
  induction l with
  | nil => intro a; exact le_refl a
  | cons x xs ih =>
      intro a
      exact le_trans (le_max_left a x) (ih (max a x))

theorem foldl_max_ge_mem (l : List ℚ) : ∀ a q : ℚ, q ∈ l → q ≤ l.foldl max a := by
  induction l with
  | nil => intro a q hq; cases hq
  | cons x xs ih =>
      intro a q hq
      rcases List.mem_cons.mp hq with rfl | h
      · exact le_trans (le_max_right a q) (foldl_max_ge_init xs (max a q))
      · exact ih (max a x) q h

theorem foldl_max_mem (l : List ℚ) : ∀ a : ℚ, l.foldl max a = a ∨ l.foldl max a ∈ l := by
  induction l with
  | nil => intro a; left; rfl
  | cons x xs ih =>
      intro a
      rcases ih (max a x) with h | h
      · rcases max_choice a x with h2 | h2
        · left; rw [List.foldl_cons, h, h2]
        · right; rw [List.foldl_cons, h, h2]; exact List.mem_cons_self x xs
      · right; exact List.mem_cons_of_mem x h

theorem periodPrices_pos (db : SystemDB) (cid : Nat) (pt pv : String)
    (hpos : ∀ r ∈ db.stock_prices.rows, 0 < r.price) :
    ∀ q ∈ periodPrices db cid pt pv, 0 < q := by
  intro q hq
  simp only [periodPrices, List.mem_map] at hq
  obtain ⟨r, hr, rfl⟩ := hq
  exact hpos r (List.mem_filter.mp hr).1

/-- C8: statistics aggregation (for stores whose prices are positive, as
the validation gate guarantees) never touches the price or metrics tables;
it is a no-op when no observation of the company falls in the period, and
otherwise every statistics row stored under the key afterwards carries the
minimum, maximum and average over exactly the period prices, such a row
exists, and rows under every other key survive. -/
theorem update_statistics_spec (db : SystemDB) (cid : Nat) (pt pv : String)
    (hpos : ∀ r ∈ db.stock_prices.rows, 0 < r.price) :
    (update_statistics db cid pt pv).stock_prices = db.stock_prices
    ∧ (update_statistics db cid pt pv).financial_metrics = db.financial_metrics
    ∧ (periodPrices db cid pt pv = [] → update_statistics db cid pt pv = db)
    ∧ (periodPrices db cid pt pv ≠ [] →
        (∀ s ∈ (update_statistics db cid pt pv).price_statistics,
          s.company_id = cid → s.period_type = pt → s.period_value = pv →
            (∀ q ∈ periodPrices db cid pt pv, s.min_price ≤ q ∧ q ≤ s.max_price)
            ∧ s.min_price ∈ periodPrices db cid pt pv
            ∧ s.max_price ∈ periodPrices db cid pt pv
            ∧ s.avg_price = (periodPrices db cid pt pv).sum
                / ((periodPrices db cid pt pv).length : ℚ))
        ∧ (∃ s, s ∈ (update_statistics db cid pt pv).price_statistics
            ∧ s.company_id = cid ∧ s.period_type = pt ∧ s.period_value = pv)
        ∧ (∀ s ∈ db.price_statistics,
            ¬(s.company_id = cid ∧ s.period_type = pt ∧ s.period_value = pv) →
              s ∈ (update_statistics db cid pt pv).price_statistics)) := by
  cases hps : periodPrices db cid pt pv with
  | nil =>
      have hupd : update_statistics db cid pt pv = db := by
        simp only [update_statistics, hps]
      exact ⟨by rw [hupd], by rw [hupd], fun _ => hupd, fun hne => absurd rfl hne⟩
  | cons p rest =>
      have hposall : ∀ q ∈ p :: rest, 0 < q := by
        rw [← hps]; exact periodPrices_pos db cid pt pv hpos
      have hminpos : 0 < rest.foldl min p := by
        rcases foldl_min_mem rest p with h | h
        · rw [h]; exact hposall p (List.mem_cons_self p rest)
        · exact hposall _ (List.mem_cons_of_mem p h)
      have hmin0 : ¬ (rest.foldl min p = 0) := ne_of_gt hminpos
      simp only [update_statistics, hps, if_neg hmin0]
      refine ⟨by simp, by simp, by simp, fun _ => ⟨?_, ?_, ?_⟩⟩
      · intro s hs hcid hpt hpv
        rcases List.mem_append.mp hs with hold | hnew
        · have hp := (List.mem_filter.mp hold).2
          simp only [Bool.not_eq_true', Bool.and_eq_false_iff, beq_eq_false_iff_ne] at hp
          rcases hp with (h | h) | h
          · exact absurd hcid h
          · exact absurd hpt h
          · exact absurd hpv h
        · have hsval : s = ⟨cid, pt, pv, rest.foldl min p, rest.foldl max p,
              (p :: rest).sum / ((p :: rest).length : ℚ)⟩ := by
            simpa using hnew
          subst hsval
          refine ⟨?_, ?_, ?_, rfl⟩
          · intro q hq
            rcases List.mem_cons.mp hq with rfl | hq2
            · exact ⟨foldl_min_le_init rest q, foldl_max_ge_init rest q⟩
            · exact ⟨foldl_min_le_mem rest p q hq2, foldl_max_ge_mem rest p q hq2⟩
          · rcases foldl_min_mem rest p with h | h
            · have hm : List.foldl min p rest ∈ p :: rest := by
                rw [h]; exact List.mem_cons_self p rest
              exact hm
            · exact List.mem_cons_of_mem p h
          · rcases foldl_max_mem rest p with h | h
            · have hm : List.foldl max p rest ∈ p :: rest := by
                rw [h]; exact List.mem_cons_self p rest
              exact hm
            · exact List.mem_cons_of_mem p h
      · exact ⟨_, List.mem_append.mpr (Or.inr (List.mem_singleton.mpr rfl)), rfl, rfl, rfl⟩
      · intro s hs hkey
        refine List.mem_append.mpr (Or.inl (List.mem_filter.mpr ⟨hs, ?_⟩))
        simp only [Bool.not_eq_true', Bool.and_eq_false_iff, beq_eq_false_iff_ne]
        by_cases h1 : s.company_id = cid
        · by_cases h2 : s.period_type = pt
          · by_cases h3 : s.period_value = pv
            · exact absurd ⟨h1, h2, h3⟩ hkey
            · exact Or.inr h3
          · exact Or.inl (Or.inr h2)
        · exact Or.inl (Or.inl h1)

/-- The store of the spec example: company 1 has observations of price 100
on 2024-01-05 and price 120 on 2024-01-20, and no statistics yet. -/
def statExampleDB : SystemDB :=
  ⟨⟨[⟨1, 1, 100, ⟨2024, 1, 5⟩, 500⟩, ⟨2, 1, 120, ⟨2024, 1, 20⟩, 300⟩], 3⟩, ⟨[], 1⟩, []⟩

/-- Closed instance of C8 at the example of the spec: the month 2024-01
holds both observations and aggregating it writes min 100, max 120,
avg 110. -/
theorem update_statistics_spec_witness :
    (∀ r ∈ statExampleDB.stock_prices.rows, 0 < r.price)
    ∧ periodPrices statExampleDB 1 "monthly" "2024-01" ≠ []
    ∧ (update_statistics statExampleDB 1 "monthly" "2024-01").stock_prices
        = statExampleDB.stock_prices
    ∧ (update_statistics statExampleDB 1 "monthly" "2024-01").price_statistics
        = [⟨1, "monthly", "2024-01", 100, 120, 110⟩] :=
  ⟨by decide, by decide,
   (update_statistics_spec statExampleDB 1 "monthly" "2024-01" (by decide)).1,
   by
    have hpp : periodPrices statExampleDB 1 "monthly" "2024-01" = [100, 120] := by decide
    simp only [update_statistics, hpp]
    norm_num [min_def, max_def, statExampleDB]⟩

/-- The stock_data dict a fetcher variant hands to the batch processor,
restricted to the fields the processors read: the mandatory price, date
and volume triad plus the optional ratio subset forwarded to the financial
metrics upsert (the sector and market strings only feed the companies
table, which no claim touches). -/
structure StockData where
  price : ℚ
  price_date : PDate
  volume : Int
  pbr : Option ℚ
  per : Option ℚ
  roe : Option ℚ
  equity_ratio : Option ℚ
  roa : Option ℚ
deriving DecidableEq, Repr

/-- validate_stock_data of both fetcher variants: in this embedding the
symbol, price and date fields exist and the date is structured by
construction, leaving the positive-price gate. -/
def validate_stock_data (sd : StockData) : Bool := decide (0 < sd.price)

/-- The financial_data mapping of the processors: each ratio key is passed
exactly when the fetched value is present, which the keyword-dict upsert
reads back with metrics.get, so forwarding the options directly is the
same function; net_sales and operating_profit are never produced. -/
def stockDataMetrics (sd : StockData) : FinMetrics :=
  ⟨sd.pbr, sd.per, sd.equity_ratio, sd.roe, sd.roa, none, none⟩

/-- Whether the financial_data dict of _update_financial_metrics is
non-empty, which gates the financial upsert call. -/
def hasFinancialData (sd : StockData) : Bool :=
  sd.pbr.isSome || sd.per.isSome || sd.roe.isSome
    || sd.equity_ratio.isSome || sd.roa.isSome

/-- _update_price_statistics of both batch processors (stock lines 240-251,
jquants lines 237-248): three update_statistics calls whose monthly and
yearly labels are strftime renderings of datetime.now(), the wall clock at
processing time, plus the all label. -/
def updatePriceStatisticsStep (db : SystemDB) (cid : Nat) (now : PDate) : SystemDB :=
  update_statistics
    (update_statistics (update_statistics db cid "monthly" (fmtYM now))
      cid "yearly" (fmtY now))
    cid "all_time" "all"

/-- The per-run counters of a batch processor. -/
structure OrchestratorState where
  dbs : SystemDB
  success_count : Nat
  error_count : Nat
  skip_count : Nat
deriving DecidableEq, Repr

/-- The per-company result dict, restricted to the fields the claims
mention. -/
structure CompanyResult where
  status : String
  data_updated : Bool
  errors : List String
deriving DecidableEq, Repr

/-- process_company_data of both batch processors (stock lines 76-166,
jquants lines 76-168).  The skip gate takes the should_update_data verdict
as the needs_update argument; a fetcher miss arrives as none.  On the main
path the price upsert result feeds _update_stock_price, which returns
success True for every status — created, unchanged and warning alike — and
even reads the nonexistent action key of the returned dict, so the errors
list stays empty, data_updated is set, the company is recorded a success,
and the conflict payload of the warning dict is discarded.  The statistics
step runs on the wall-clock date now.  Exceptions have no counterpart
here because every embedded store operation is total. -/
def process_company_data (st : OrchestratorState) (cid : Nat)
    (force needs_update : Bool) (fetched : Option StockData) (now : PDate) :
    CompanyResult × OrchestratorState :=
  if !force && !needs_update then
    (⟨"skipped", false, []⟩, { st with skip_count := st.skip_count + 1 })
  else
    match fetched with
    | none => (⟨"error", false, []⟩, { st with error_count := st.error_count + 1 })
    | some sd =>
        if validate_stock_data sd then
          let pres := create_or_update st.dbs.stock_prices cid sd.price
            sd.price_date sd.volume
          let db1 : SystemDB := { st.dbs with stock_prices := pres.2 }
          let db2 : SystemDB :=
            if hasFinancialData sd then
              { db1 with financial_metrics :=
                  (fin_create_or_update db1.financial_metrics cid sd.price_date
                    (stockDataMetrics sd)).2 }
            else db1
          let db3 := updatePriceStatisticsStep db2 cid now
          (⟨"success", true, []⟩,
           { dbs := db3, success_count := st.success_count + 1,
             error_count := st.error_count, skip_count := st.skip_count })
        else
          (⟨"error", false, []⟩, { st with error_count := st.error_count + 1 })

/-- The fetched data of the C7 scenario: price 105 for 2024-01-05. -/
def conflictStockData : StockData := ⟨105, ⟨2024, 1, 5⟩, 500, none, none, none, none, none⟩

/-- Orchestrator state whose store already holds price 100 for company 1
on 2024-01-05, so the fetched 105 is a conflict. -/
def conflictState : OrchestratorState :=
  ⟨⟨⟨[⟨1, 1, 100, ⟨2024, 1, 5⟩, 500⟩], 2⟩, ⟨[], 1⟩, []⟩, 0, 0, 0⟩

/-- C7 counterexample: the price reconciliation of the fetched data
against the stored row reports a conflict (warning), yet the orchestrator
still marks the company success, counts it in the success tally, and
records no error — the conflict is not a distinguishable outcome of the
batch result and the existing and candidate values are dropped. -/
theorem conflict_counted_as_success_counterexample :
    (create_or_update conflictState.dbs.stock_prices 1 105 ⟨2024, 1, 5⟩ 500).1
      = .warning 1 100 500 105 500
    ∧ (process_company_data conflictState 1 false true
        (some conflictStockData) ⟨2024, 1, 15⟩).1.status = "success"
    ∧ (process_company_data conflictState 1 false true
        (some conflictStockData) ⟨2024, 1, 15⟩).1.errors = []
    ∧ (process_company_data conflictState 1 false true
        (some conflictStockData) ⟨2024, 1, 15⟩).2.success_count = 1
    ∧ (process_company_data conflictState 1 false true
        (some conflictStockData) ⟨2024, 1, 15⟩).2.error_count = 0 := by
  have hfind : findExistingPrice conflictState.dbs.stock_prices 1 ⟨2024, 1, 5⟩
      = some ⟨1, 1, 100, ⟨2024, 1, 5⟩, 500⟩ := by decide
  have hv : validate_stock_data conflictStockData = true := by decide
  refine ⟨?_, ?_, ?_, ?_, ?_⟩
  · simp only [create_or_update, hfind]
    rw [if_pos (Or.inl (by norm_num [ratAbs]))]
  all_goals simp [process_company_data, hv, conflictState]

/-- C7 amended: the orchestrator marks a company success, with an empty
error list and the success tally incremented, whenever the fetch returned
data that passes validation — regardless of the price reconciliation
outcome, so a conflict is silently counted as success and its existing
and candidate values never reach the batch result. -/
theorem process_company_marks_success (st : OrchestratorState) (cid : Nat)
    (force needs_update : Bool) (sd : StockData) (now : PDate)
    (hrun : force = true ∨ needs_update = true)
    (hvalid : validate_stock_data sd = true) :
    (process_company_data st cid force needs_update (some sd) now).1.status = "success"
    ∧ (process_company_data st cid force needs_update (some sd) now).1.errors = []
    ∧ (process_company_data st cid force needs_update (some sd) now).1.data_updated = true
    ∧ (process_company_data st cid force needs_update (some sd) now).2.success_count
        = st.success_count + 1
    ∧ (process_company_data st cid force needs_update (some sd) now).2.error_count
        = st.error_count := by
  have hskip : (!force && !needs_update) = false := by
    rcases hrun with h | h <;> simp [h]
  simp [process_company_data, hskip, hvalid]

/-- Closed instance of the amended C7 at the conflicting input. -/
theorem process_company_marks_success_witness :
    ((false = true ∨ true = true) ∧ validate_stock_data conflictStockData = true)
    ∧ ((process_company_data conflictState 1 false true
          (some conflictStockData) ⟨2024, 1, 15⟩).1.status = "success"
      ∧ (process_company_data conflictState 1 false true
          (some conflictStockData) ⟨2024, 1, 15⟩).1.errors = []
      ∧ (process_company_data conflictState 1 false true
          (some conflictStockData) ⟨2024, 1, 15⟩).1.data_updated = true
      ∧ (process_company_data conflictState 1 false true
          (some conflictStockData) ⟨2024, 1, 15⟩).2.success_count
          = conflictState.success_count + 1
      ∧ (process_company_data conflictState 1 false true
          (some conflictStockData) ⟨2024, 1, 15⟩).2.error_count
          = conflictState.error_count) :=
  ⟨⟨Or.inr rfl, by decide⟩,
   process_company_marks_success conflictState 1 false true conflictStockData
     ⟨2024, 1, 15⟩ (Or.inr rfl) (by decide)⟩

/-- The statistics rows stored under one (company, periodType, periodValue)
key. -/
def statKeyRows (l : List StatRow) (cid : Nat) (pt pv : String) : List StatRow :=
  l.filter fun s => s.company_id == cid && s.period_type == pt && s.period_value == pv

theorem update_statistics_other_key_frame (db : SystemDB) (cid cid2 : Nat)
    (pt pv pt2 pv2 : String) (h : (pt2, pv2) ≠ (pt, pv)) :
    statKeyRows (update_statistics db cid pt pv).price_statistics cid2 pt2 pv2
      = statKeyRows db.price_statistics cid2 pt2 pv2 := by
  have hor : pt ≠ pt2 ∨ pv ≠ pv2 := by
    by_contra hc
    push_neg at hc
    exact h (by rw [hc.1, hc.2])
  cases hps : periodPrices db cid pt pv with
  | nil => simp only [update_statistics, hps]
  | cons p rest =>
      by_cases hm : rest.foldl min p = 0
      · simp only [update_statistics, hps, if_pos hm]
      · simp only [update_statistics, hps, if_neg hm, statKeyRows]
        rw [List.filter_append]
        have hnew : (List.filter
            (fun s => s.company_id == cid2 && s.period_type == pt2 && s.period_value == pv2)
            [(⟨cid, pt, pv, rest.foldl min p, rest.foldl max p,
              (p :: rest).sum / ((p :: rest).length : ℚ)⟩ : StatRow)]) = [] := by
          rcases hor with h2 | h2
          · simp [beq_eq_false_iff_ne.mpr h2]
          · simp [beq_eq_false_iff_ne.mpr h2]
        rw [hnew, List.append_nil, List.filter_filter]
        apply List.filter_congr
        intro a _
        by_cases hP : (a.company_id == cid2 && a.period_type == pt2 && a.period_value == pv2) = true
        · simp only [Bool.and_eq_true, beq_iff_eq] at hP
          obtain ⟨⟨_, hpt2⟩, hpv2⟩ := hP
          have hq : (a.company_id == cid && a.period_type == pt && a.period_value == pv) = false := by
            rcases hor with h2 | h2
            · simp [hpt2, beq_eq_false_iff_ne.mpr (Ne.symm h2)]
            · simp [hpv2, beq_eq_false_iff_ne.mpr (Ne.symm h2)]
          simp [hq, hpt2, hpv2]
          intro _
          rcases hor with h2 | h2
          · exact Or.inl (Or.inr fun hh => h2 hh.symm)
          · exact Or.inr fun hh => h2 hh.symm
        · simp only [Bool.not_eq_true] at hP
          simp [hP]

/-- The fetched data of the C9 scenario: a back-dated observation of
2020-05-10. -/
def backdatedStockData : StockData := ⟨100, ⟨2020, 5, 10⟩, 0, none, none, none, none, none⟩

/-- Orchestrator state over an empty store. -/
def emptyOrchestratorState : OrchestratorState := ⟨⟨⟨[], 1⟩, ⟨[], 1⟩, []⟩, 0, 0, 0⟩

/-- C9 counterexample: processing a back-dated observation of 2020-05-10
on wall-clock date 2024-01-15 succeeds and stores the observation, yet no
statistics row for its own month 2020-05 or year 2020 exists afterwards —
the only statistics write is the all_time bucket, because the monthly and
yearly labels came from the current date, whose period holds no rows. -/
theorem stats_wallclock_counterexample :
    (process_company_data emptyOrchestratorState 1 true true
        (some backdatedStockData) ⟨2024, 1, 15⟩).1.status = "success"
    ∧ (process_company_data emptyOrchestratorState 1 true true
        (some backdatedStockData) ⟨2024, 1, 15⟩).2.dbs.stock_prices.rows
      = [⟨1, 1, 100, ⟨2020, 5, 10⟩, 0⟩]
    ∧ ((process_company_data emptyOrchestratorState 1 true true
        (some backdatedStockData) ⟨2024, 1, 15⟩).2.dbs.price_statistics.all
          fun s => s.period_value != "2020-05" && s.period_value != "2020") = true
    ∧ ((process_company_data emptyOrchestratorState 1 true true
        (some backdatedStockData) ⟨2024, 1, 15⟩).2.dbs.price_statistics.map
          StatRow.period_type) = ["all_time"] := by decide

/-- C9 amended: after a successful fetch and reconcile the orchestrator
invokes the statistics aggregation with the monthly and yearly labels of
the current wall-clock date (plus the all_time bucket); every statistics
key other than those three — in particular the month and year buckets of a
back-dated observation — is left exactly as it was. -/
theorem process_stats_wallclock_frame (st : OrchestratorState) (cid : Nat)
    (force needs_update : Bool) (sd : StockData) (now : PDate)
    (hrun : force = true ∨ needs_update = true)
    (hvalid : validate_stock_data sd = true)
    (cid2 : Nat) (pt pv : String)
    (h1 : (pt, pv) ≠ ("monthly", fmtYM now))
    (h2 : (pt, pv) ≠ ("yearly", fmtY now))
    (h3 : (pt, pv) ≠ ("all_time", "all")) :
    statKeyRows (process_company_data st cid force needs_update (some sd)
        now).2.dbs.price_statistics cid2 pt pv
      = statKeyRows st.dbs.price_statistics cid2 pt pv := by
  have hskip : (!force && !needs_update) = false := by
    rcases hrun with h | h <;> simp [h]
  simp only [process_company_data, hskip, hvalid, Bool.false_eq_true, if_false,
    if_true]
  simp only [updatePriceStatisticsStep]
  rw [update_statistics_other_key_frame _ _ _ _ _ _ _ h3,
    update_statistics_other_key_frame _ _ _ _ _ _ _ h2,
    update_statistics_other_key_frame _ _ _ _ _ _ _ h1]
  by_cases hfin : hasFinancialData sd = true <;> simp [hfin]

/-- Closed instance of the amended C9 at the back-dated input: the month
bucket 2020-05 of the observation is untouched by the run. -/
theorem process_stats_wallclock_frame_witness :
    statKeyRows (process_company_data emptyOrchestratorState 1 true true
        (some backdatedStockData) ⟨2024, 1, 15⟩).2.dbs.price_statistics
        1 "monthly" "2020-05"
      = statKeyRows emptyOrchestratorState.dbs.price_statistics 1 "monthly" "2020-05" :=
  process_stats_wallclock_frame emptyOrchestratorState 1 true true
    backdatedStockData ⟨2024, 1, 15⟩ (Or.inl rfl) (by decide)
    1 "monthly" "2020-05" (by decide) (by decide) (by decide)

end KabuStock
